import Mathlib

/-!
Verification of the docx → orders.json extraction pipeline (`src/packing.py`).

Strings are modelled as `List Char`.  Python's `str.strip()` is `pyStrip`,
`re.search` of the two patterns used by the source is modelled directly by
recursive scanners over the character list, and warnings are modelled by an
inductive type `Warning` with one constructor per `warnings.append` site in
the source (carrying the data interpolated into the message).
-/

namespace Packing

/-- Convert a string literal to the `List Char` representation used here. -/
def toCL (s : String) : List Char := s.data

/-- Python's `\s` character class restricted to its ASCII members
(space, tab, newline, carriage return, vertical tab, form feed). -/
def isPySpace (c : Char) : Bool :=
  c = ' ' || c = '\t' || c = '\n' || c = '\r' || c = '\x0b' || c = '\x0c'

/-- Python's `str.strip()`: drop whitespace from both ends.
Embeds `norm` (packing.py line 11-13), which is `str(s).strip()`. -/
def pyStrip (s : List Char) : List Char :=
  ((s.dropWhile isPySpace).reverse.dropWhile isPySpace).reverse

/-- Python's `needle in hay` substring test. -/
def hasSub (needle : List Char) : List Char → Bool
  | [] => needle.isEmpty
  | c :: t => needle.isPrefixOf (c :: t) || hasSub needle t

/-- Characters matched by the identifier token class `[A-Za-z0-9\-]`. -/
def isTokenChar (c : Char) : Bool :=
  ('A' ≤ c && c ≤ 'Z') || ('a' ≤ c && c ≤ 'z') || ('0' ≤ c && c ≤ '9') || c = '-'

/-- Characters matched by the separator class `[:\s]` in the identifier regex. -/
def isSepChar (c : Char) : Bool :=
  c = ':' || isPySpace c

/-- The literal label `출고주문번호` of the identifier regex. -/
def shipLabel : List Char := toCL "출고주문번호"

/-- If `p` is a prefix of `s`, return the remainder, else `none`. -/
def dropPre : List Char → List Char → Option (List Char)
  | [], s => some s
  | _, [] => none
  | a :: p, b :: s => if a = b then dropPre p s else none

/-- Try to match `출고주문번호[:\s]*([A-Za-z0-9\-]+)` at the head of `s`,
returning the captured group.  Backtracking into `[:\s]*` can never help
because the separator and token character classes are disjoint, so greedy
matching is exact. -/
def matchShipAt (s : List Char) : Option (List Char) :=
  match dropPre shipLabel s with
  | none => none
  | some rest =>
      let tok := (rest.dropWhile isSepChar).takeWhile isTokenChar
      if tok.isEmpty then none else some tok

/-- Model of `re.search` of the identifier pattern: try every start position left to
right. -/
def searchShip : List Char → Option (List Char)
  | [] => none
  | c :: t =>
      match matchShipAt (c :: t) with
      | some tok => some tok
      | none => searchShip t

/-- A table: ordered rows, each row an ordered list of cell texts.
Row 0, when present, is the header row. -/
structure Table where
  rows : List (List (List Char))
deriving DecidableEq, Repr

/-- A document: ordered paragraph texts and ordered tables. -/
structure Doc where
  paragraphs : List (List Char)
  tables : List Table
deriving DecidableEq, Repr

/-- The function `extract_ship_id` (packing.py lines 16-26): scan paragraphs in order,
return `norm` of the first regex capture, or `None`. -/
def extract_ship_id (doc : Doc) : Option (List Char) :=
  go doc.paragraphs
where
  go : List (List Char) → Option (List Char)
    | [] => none
    | p :: t =>
        match searchShip p with
        | some tok => some (pyStrip tok)
        | none => go t

/-- One output line item (the dict appended at packing.py lines 84-88). -/
structure LineItem where
  barcode : List Char
  name : List Char
  qty : Nat
deriving DecidableEq, Repr

/-- Warnings, one constructor per `warnings.append` site in packing.py,
carrying the data interpolated into the message text. -/
inductive Warning
  /-- Line 76: `표 {r_i}행: 수량 파싱 실패(값='{qty_raw}') → 건너뜀`. -/
  | qtyParseFail (rowNum : Nat) (qtyRaw : List Char)
  /-- Line 80: `표 {r_i}행: 상품 바코드가 비어있음(상품='{name}')`. -/
  | emptyBarcode (rowNum : Nat) (name : List Char)
  /-- Line 91: no table with the three required headers was found. -/
  | noTableFound
  /-- Line 101: `출고주문번호` not found in the document. -/
  | noShipId
  /-- Line 118: zero items were extracted. -/
  | noItems
deriving DecidableEq, Repr

/-- Model of `re.search(r"\d+", s)`: the first maximal run of digits, if any. -/
def firstDigitRun : List Char → Option (List Char)
  | [] => none
  | c :: t => if c.isDigit then some ((c :: t).takeWhile Char.isDigit)
              else firstDigitRun t

/-- Decimal value of a digit string (Python's `int` on the matched group). -/
def digitsToNat (l : List Char) : Nat :=
  l.foldl (fun acc c => acc * 10 + (c.toNat - '0'.toNat)) 0

/-- The qty computation of packing.py lines 66-67:
`m = re.search(r"\d+", qty_raw); qty = int(m.group(0)) if m else 0`.
(The digits matched are nonnegative, so `Nat` is faithful to the `int`.) -/
def parse_qty (qty_raw : List Char) : Nat :=
  match firstDigitRun qty_raw with
  | some d => digitsToNat d
  | none => 0

/-- First index of `x` in `l` (Python `list.index`; callers guard presence). -/
def idxOf (x : List Char) : List (List Char) → Nat
  | [] => 0
  | h :: t => if h = x then 0 else idxOf x t + 1

/-- The required header labels (packing.py line 40). -/
def wanted : List (List Char) :=
  [toCL "주문상품", toCL "주문수량", toCL "상품 바코드"]

/-- The placeholder name for blank name cells (packing.py line 86). -/
def namePlaceholder : List Char := toCL "(상품명 없음)"

/-- The summary-row marker (packing.py line 72). -/
def sumMarker : List Char := toCL "합계"

/-- The body of the per-row loop, packing.py lines 56-88, for one data row:
returns the item appended (if any) and the warnings appended. -/
def rowResult (iN iQ iB r_i : Nat) (rawCells : List (List Char)) :
    Option LineItem × List Warning :=
  let cells := rawCells.map pyStrip
  if cells.length ≤ max iN (max iQ iB) then (none, [])
  else
    let name := pyStrip (cells.getD iN [])
    let barcode := pyStrip (cells.getD iB [])
    let qty_raw := pyStrip (cells.getD iQ [])
    let qty := parse_qty qty_raw
    if name.isEmpty && barcode.isEmpty then (none, [])
    else if hasSub sumMarker name then (none, [])
    else if qty = 0 then (none, [Warning.qtyParseFail r_i qty_raw])
    else if barcode.isEmpty then (none, [Warning.emptyBarcode r_i name])
    else (some ⟨barcode, if name.isEmpty then namePlaceholder else name, qty⟩, [])

/-- Processing of one table, packing.py lines 43-88: whether the table was
recognized (counts for `found_any_table`), its items, and its warnings. -/
def processTable (t : Table) : Bool × List LineItem × List Warning :=
  match t.rows with
  | [] => (false, [], [])
  | hrow :: drows =>
      let headers := hrow.map pyStrip
      if wanted.all (fun w => headers.contains w) then
        let iN := idxOf (toCL "주문상품") headers
        let iQ := idxOf (toCL "주문수량") headers
        let iB := idxOf (toCL "상품 바코드") headers
        let res := (List.enumFrom 2 drows).map (fun p => rowResult iN iQ iB p.1 p.2)
        (true, (res.map Prod.fst).reduceOption, (res.map Prod.snd).flatten)
      else (false, [], [])

/-- The function `parse_items_from_tables` (packing.py lines 29-93). -/
def parse_items_from_tables (doc : Doc) : List LineItem × List Warning :=
  let res := doc.tables.map processTable
  let found_any_table := res.any (fun r => r.1)
  let items := (res.map (fun r => r.2.1)).flatten
  let ws := (res.map (fun r => r.2.2)).flatten
  (items, if found_any_table then ws else ws ++ [Warning.noTableFound])

/-- One order of the output file. -/
structure Order where
  orderId : List Char
  items : List LineItem
deriving DecidableEq, Repr

/-- The output file shape (packing.py lines 107-115).  `date` is
`str(date.today())`, which is ambient; it is passed in as `today`. -/
structure OrdersFile where
  date : List Char
  orders : List Order
deriving DecidableEq, Repr

/-- The function `build_orders_json` (packing.py lines 96-120). -/
def build_orders_json (today : List Char) (doc : Doc) : OrdersFile × List Warning :=
  let sid := extract_ship_id doc
  let noId := match sid with
    | none => true
    | some s => s.isEmpty
  let ship_id := if noId then toCL "UNKNOWN" else sid.getD []
  let w1 : List Warning := if noId then [Warning.noShipId] else []
  let (items, w2) := parse_items_from_tables doc
  let warnings := w1 ++ w2
  let warnings := if items.isEmpty then warnings ++ [Warning.noItems] else warnings
  (⟨today, [⟨ship_id, items⟩]⟩, warnings)


/-- The standard recognized header row. -/
def hdr : List (List Char) := [toCL "주문상품", toCL "주문수량", toCL "상품 바코드"]

/-- Table T1: recognized, two valid data rows. -/
def tableT1 : Table :=
  ⟨[hdr, [toCL "사과", toCL "2", toCL "111"], [toCL "배", toCL "1", toCL "222"]]⟩

/-- Table T2: recognized, one valid data row. -/
def tableT2 : Table := ⟨[hdr, [toCL "감", toCL "1", toCL "333"]]⟩

/-- Document with identifiers A and B and tables T1, T2. -/
def docC1 : Doc :=
  ⟨[toCL "출고주문번호: A", toCL "출고주문번호: B"], [tableT1, tableT2]⟩


/-! ### Helper lemmas -/

/-- A row that produces an item has positive quantity and a non-empty barcode:
the `qty <= 0` and `not barcode` guards precede the append. -/
theorem rowResult_fst_some (iN iQ iB r_i : Nat) (rawCells : List (List Char))
    (it : LineItem) (h : (rowResult iN iQ iB r_i rawCells).1 = some it) :
    0 < it.qty ∧ it.barcode ≠ [] := by
  unfold rowResult at h
  dsimp only at h
  split at h
  · simp at h
  · split at h
    · simp at h
    · split at h
      · simp at h
      · split at h
        · simp at h
        · split at h
          · simp at h
          · rename_i hq hb
            simp only [Option.some.injEq] at h
            subst h
            refine ⟨Nat.pos_of_ne_zero hq, ?_⟩
            simpa using hb

/-- Every item of `parse_items_from_tables` comes from some `rowResult`. -/
theorem mem_parse_items (d : Doc) (it : LineItem)
    (h : it ∈ (parse_items_from_tables d).1) :
    ∃ iN iQ iB r cells, (rowResult iN iQ iB r cells).1 = some it := by
  unfold parse_items_from_tables at h
  simp only [List.mem_flatten, List.mem_map] at h
  obtain ⟨l, ⟨res, ⟨t, _, rfl⟩, rfl⟩, hit⟩ := h
  unfold processTable at hit
  split at hit
  · simp at hit
  · dsimp only at hit
    split at hit
    · simp only [List.reduceOption_mem_iff, List.mem_map] at hit
      obtain ⟨x, ⟨p, _, rfl⟩, hx⟩ := hit
      exact ⟨_, _, _, _, _, hx⟩
    · simp at hit

/-! ### Claim theorems -/

/-- C4: every `LineItem` in the output of `parse_items_from_tables` has
`qty > 0` and a non-empty barcode; rows failing either condition are
dropped, never retained with default values. -/
theorem C4_item_invariant (d : Doc) (it : LineItem)
    (h : it ∈ (parse_items_from_tables d).1) :
    0 < it.qty ∧ it.barcode ≠ [] := by
  obtain ⟨iN, iQ, iB, r, cells, hr⟩ := mem_parse_items d it h
  exact rowResult_fst_some iN iQ iB r cells it hr

/-- Document with a single recognized table and one valid row. -/
def docC4 : Doc := ⟨[], [⟨[hdr, [toCL "사과", toCL "2", toCL "111"]]⟩]⟩

/-- The item extracted from `docC4`. -/
def itemC4 : LineItem := ⟨toCL "111", toCL "사과", 2⟩

/-- Witness for C4 on a concrete document and item. -/
theorem C4_item_invariant_witness : 0 < itemC4.qty ∧ itemC4.barcode ≠ [] :=
  C4_item_invariant docC4 itemC4 (by decide)

/-- Document whose two paragraphs carry the distinct identifiers A and B. -/
def docC2 : Doc := ⟨[toCL "출고주문번호: A", toCL "출고주문번호: B"], []⟩

/-- C2 counterexample: on a document carrying the two distinct identifiers
A and B, `extract_ship_id` returns only `some "A"` (its result type is a
single optional token, not a list); B is never returned. -/
theorem C2_counterexample :
    extract_ship_id docC2 = some (toCL "A") ∧
      extract_ship_id docC2 ≠ some (toCL "B") := by decide

/-- C2 amended: the extractor returns (the `norm` of) only the FIRST
matched token across the paragraphs in document order, not the list of all
matches; later identifiers are ignored. -/
theorem C2_first_match_only (d : Doc) :
    extract_ship_id d = ((d.paragraphs.filterMap searchShip).head?).map pyStrip := by
  unfold extract_ship_id
  induction d.paragraphs with
  | nil => rfl
  | cons p t ih =>
      cases hs : searchShip p with
      | none => simpa [extract_ship_id.go, List.filterMap_cons, hs] using ih
      | some tok => simp [extract_ship_id.go, List.filterMap_cons, hs]

/-- C7: when no identifier matches anywhere, the pipeline still produces a
single order under the sentinel "UNKNOWN" and the missing-identifier
warning is present in the returned warning list. -/
theorem C7_unknown_sentinel (today : List Char) (d : Doc)
    (h : extract_ship_id d = none) :
    (build_orders_json today d).1.orders.map Order.orderId = [toCL "UNKNOWN"] ∧
      Warning.noShipId ∈ (build_orders_json today d).2 := by
  unfold build_orders_json
  rw [h]
  dsimp only
  constructor
  · rfl
  · split <;> simp

/-- A document with no paragraphs and no tables. -/
def docC7 : Doc := ⟨[], []⟩

/-- Witness for C7 on a concrete identifier-free document. -/
theorem C7_unknown_sentinel_witness :
    (build_orders_json (toCL "2026-10-12") docC7).1.orders.map Order.orderId =
        [toCL "UNKNOWN"] ∧
      Warning.noShipId ∈ (build_orders_json (toCL "2026-10-12") docC7).2 :=
  C7_unknown_sentinel (toCL "2026-10-12") docC7 (by decide)

/-- C8: a data row whose trimmed name contains the summary marker `합계`
yields no item and no warning, regardless of quantity and barcode: the
summary check precedes the quantity and barcode checks. -/
theorem C8_summary_row_skipped (iN iQ iB r_i : Nat) (rawCells : List (List Char))
    (hsum : hasSub sumMarker (pyStrip ((rawCells.map pyStrip).getD iN [])) = true) :
    rowResult iN iQ iB r_i rawCells = (none, []) := by
  unfold rowResult
  dsimp only
  split
  · rfl
  · have hname : (pyStrip ((rawCells.map pyStrip).getD iN [])).isEmpty = false := by
      cases hn : pyStrip ((rawCells.map pyStrip).getD iN []) with
      | nil => rw [hn] at hsum; exact absurd hsum (by decide)
      | cons c cs => rfl
    simp [hname, hsum]

/-- Witness for C8: a summary row with positive quantity and a barcode. -/
theorem C8_summary_row_skipped_witness :
    rowResult 0 1 2 2 [toCL "합계", toCL "3", toCL "111"] = (none, []) :=
  C8_summary_row_skipped 0 1 2 2 [toCL "합계", toCL "3", toCL "111"] (by decide)

/-- C9: a data row with too few cells to cover the highest required column
index is skipped silently (no item, no warning); when the guard passes,
each of the three column indices is within bounds of the cell list. -/
theorem C9_short_row_guard (iN iQ iB r_i : Nat) (rawCells : List (List Char)) :
    ((rawCells.map pyStrip).length ≤ max iN (max iQ iB) →
        rowResult iN iQ iB r_i rawCells = (none, [])) ∧
      (max iN (max iQ iB) < (rawCells.map pyStrip).length →
        iN < (rawCells.map pyStrip).length ∧ iQ < (rawCells.map pyStrip).length ∧
          iB < (rawCells.map pyStrip).length) := by
  constructor
  · intro h
    unfold rowResult
    dsimp only
    rw [if_pos h]
  · intro h
    refine ⟨lt_of_le_of_lt (le_max_left _ _) h,
      lt_of_le_of_lt (le_trans (le_max_left _ _) (le_max_right _ _)) h,
      lt_of_le_of_lt (le_trans (le_max_right _ _) (le_max_right _ _)) h⟩

/-- Witness for C9: a one-cell row under indices 0, 1, 2 is skipped
silently, and a three-cell row has all indices in bounds. -/
theorem C9_short_row_guard_witness :
    rowResult 0 1 2 2 [toCL "x"] = (none, []) ∧
      (0 < ([toCL "사과", toCL "3", toCL "111"].map pyStrip).length ∧
        1 < ([toCL "사과", toCL "3", toCL "111"].map pyStrip).length ∧
        2 < ([toCL "사과", toCL "3", toCL "111"].map pyStrip).length) :=
  ⟨(C9_short_row_guard 0 1 2 2 [toCL "x"]).1 (by decide),
    (C9_short_row_guard 0 1 2 2 [toCL "사과", toCL "3", toCL "111"]).2 (by decide)⟩

/-- C10: for every document the assembler emits exactly one order, whose
items are the concatenation of the items of every recognized table. -/
theorem C10_single_order (today : List Char) (d : Doc) :
    (build_orders_json today d).1.orders.length = 1 ∧
      (build_orders_json today d).1.orders.map Order.items =
        [((d.tables.map processTable).map (fun r => r.2.1)).flatten] := by
  unfold build_orders_json parse_items_from_tables
  dsimp only
  exact ⟨rfl, rfl⟩

/-- A string with no digit has no digit run. -/
theorem firstDigitRun_eq_none (s : List Char) (h : ∀ c ∈ s, c.isDigit = false) :
    firstDigitRun s = none := by
  induction s with
  | nil => rfl
  | cons c t ih =>
      have hc : c.isDigit = false := h c (by simp)
      simp only [firstDigitRun, hc, Bool.false_eq_true, if_false]
      exact ih fun x hx => h x (List.mem_cons_of_mem _ hx)

/-- Scanning skips over a digit-free leading segment. -/
theorem firstDigitRun_append (a x : List Char) (h : ∀ c ∈ a, c.isDigit = false) :
    firstDigitRun (a ++ x) = firstDigitRun x := by
  induction a with
  | nil => rfl
  | cons c t ih =>
      have hc : c.isDigit = false := h c (by simp)
      simp only [List.cons_append, firstDigitRun, hc, Bool.false_eq_true, if_false]
      exact ih fun y hy => h y (List.mem_cons_of_mem _ hy)

/-- Applying `takeWhile isDigit` to an all-digit block followed by a non-digit
boundary is the block itself. -/
theorem takeWhile_digit_block (d b : List Char) (hd : ∀ c ∈ d, c.isDigit = true)
    (hb : ∀ c ∈ b.head?, c.isDigit = false) :
    (d ++ b).takeWhile Char.isDigit = d := by
  induction d with
  | nil =>
      cases b with
      | nil => rfl
      | cons c t =>
          have hc : c.isDigit = false := hb c (by simp)
          simp [List.takeWhile_cons, hc]
  | cons c t ih =>
      have hc : c.isDigit = true := hd c (by simp)
      simp only [List.cons_append, List.takeWhile_cons, hc, if_true]
      rw [ih fun x hx => hd x (List.mem_cons_of_mem _ hx)]

/-- C5: the parsed quantity is the decimal value of the first contiguous
digit run anywhere in the text, whatever surrounds it, and it is 0 when the
text has no digit at all. -/
theorem C5_quantity_first_digit_run :
    (∀ a d b : List Char, (∀ c ∈ a, c.isDigit = false) → d ≠ [] →
        (∀ c ∈ d, c.isDigit = true) → (∀ c ∈ b.head?, c.isDigit = false) →
        parse_qty (a ++ d ++ b) = digitsToNat d) ∧
      (∀ s : List Char, (∀ c ∈ s, c.isDigit = false) → parse_qty s = 0) := by
  constructor
  · intro a d b ha hd hall hb
    unfold parse_qty
    rw [List.append_assoc, firstDigitRun_append a (d ++ b) ha]
    cases d with
    | nil => exact absurd rfl hd
    | cons c t =>
        have hc : c.isDigit = true := hall c (by simp)
        have h1 : firstDigitRun ((c :: t) ++ b) =
            some (((c :: t) ++ b).takeWhile Char.isDigit) := by
          simp [firstDigitRun, hc]
        rw [h1, takeWhile_digit_block (c :: t) b hall hb]
  · intro s h
    unfold parse_qty
    rw [firstDigitRun_eq_none s h]

/-- Witness for C5: "qty: 12 pcs" parses to 12, and a digit-free string
parses to 0. -/
theorem C5_quantity_witness :
    parse_qty (toCL "qty: " ++ toCL "12" ++ toCL " pcs") = digitsToNat (toCL "12") ∧
      parse_qty (toCL "abc") = 0 :=
  ⟨C5_quantity_first_digit_run.1 (toCL "qty: ") (toCL "12") (toCL " pcs")
      (by decide) (by decide) (by decide) (by decide),
    C5_quantity_first_digit_run.2 (toCL "abc") (by decide)⟩

/-- C1 counterexample: on a document with identifiers A and B and
recognized tables T1 (2 items) and T2 (1 item), the output is a single
order under A containing ALL three items — T2's item (barcode 333) is
assigned to A, and no order for B exists. -/
theorem C1_counterexample :
    (build_orders_json (toCL "2026-10-12") docC1).1.orders =
      [⟨toCL "A", [⟨toCL "111", toCL "사과", 2⟩, ⟨toCL "222", toCL "배", 1⟩,
        ⟨toCL "333", toCL "감", 1⟩]⟩] := by decide

/-- C1 amended: the assembler performs no identifier/table pairing at all:
when an identifier is extracted (the first match in the document), the
output is exactly one order under that identifier holding the items of
every recognized table. -/
theorem C1_no_pairing (today : List Char) (d : Doc) (s : List Char)
    (h : extract_ship_id d = some s) (hs : s ≠ []) :
    (build_orders_json today d).1.orders = [⟨s, (parse_items_from_tables d).1⟩] := by
  unfold build_orders_json
  rw [h]
  dsimp only
  simp [hs]

/-- Witness for the amended C1 on the two-identifier document. -/
theorem C1_no_pairing_witness :
    (build_orders_json (toCL "d") docC1).1.orders =
      [⟨toCL "A", (parse_items_from_tables docC1).1⟩] :=
  C1_no_pairing (toCL "d") docC1 (toCL "A") (by decide) (by decide)

/-- A table whose header carries the secondary linked-code label
`상품 연동코드` instead of the primary `상품 바코드`, with one valid row. -/
def tableC3 : Table :=
  ⟨[[toCL "주문상품", toCL "주문수량", toCL "상품 연동코드"],
    [toCL "사과", toCL "2", toCL "111"]]⟩

/-- Document containing only `tableC3`. -/
def docC3 : Doc := ⟨[], [tableC3]⟩

/-- C3 counterexample: a table lacking the primary barcode header but
carrying the secondary linked-code header yields NO items and no
fallback warning — only the generic no-recognized-table warning. -/
theorem C3_counterexample :
    parse_items_from_tables docC3 = ([], [Warning.noTableFound]) := by decide

/-- C3 amended: there is no fallback barcode column: any table whose
trimmed header row does not contain all three required labels (including
the primary `상품 바코드`) is not recognized and contributes no items and
no warnings of its own. -/
theorem C3_no_fallback (t : Table) (hrow : List (List Char))
    (drows : List (List (List Char))) (ht : t.rows = hrow :: drows)
    (hno : wanted.all (fun w => (hrow.map pyStrip).contains w) = false) :
    processTable t = (false, [], []) := by
  unfold processTable
  rw [ht]
  dsimp only
  have hno' : ¬ ((wanted.all fun w => (hrow.map pyStrip).contains w) = true) := by
    simp only [hno]
    exact Bool.false_ne_true
  rw [if_neg hno']

/-- Witness for the amended C3 on the secondary-header table. -/
theorem C3_no_fallback_witness : processTable tableC3 = (false, [], []) :=
  C3_no_fallback tableC3
    [toCL "주문상품", toCL "주문수량", toCL "상품 연동코드"]
    [[toCL "사과", toCL "2", toCL "111"]] (by decide) (by decide)

/-- Table with a data row whose name and barcode cells are both blank. -/
def tableC6 : Table := ⟨[hdr, [toCL "", toCL "3", toCL ""]]⟩

/-- Document containing only `tableC6`. -/
def docC6 : Doc := ⟨[toCL "출고주문번호: X"], [tableC6]⟩

/-- C6 counterexample: a data row with a blank barcode AND a blank name is
skipped silently — the parser records no warning at all for it, contrary
to the claim's "including when the row's name cell is also blank". -/
theorem C6_counterexample :
    parse_items_from_tables docC6 = ([], []) := by decide

/-- C6 amended: a data row whose resolved barcode is blank is skipped with
an empty-barcode warning provided its trimmed name is non-blank, it is not
a summary row, and its quantity parses positive; when the name is also
blank the blank-row guard fires first and the row is skipped silently. -/
theorem C6_blank_barcode (iN iQ iB r_i : Nat) (rawCells : List (List Char))
    (hlen : max iN (max iQ iB) < (rawCells.map pyStrip).length)
    (hname : pyStrip ((rawCells.map pyStrip).getD iN []) ≠ [])
    (hsum : hasSub sumMarker (pyStrip ((rawCells.map pyStrip).getD iN [])) = false)
    (hqty : parse_qty (pyStrip ((rawCells.map pyStrip).getD iQ [])) ≠ 0)
    (hbar : pyStrip ((rawCells.map pyStrip).getD iB []) = []) :
    rowResult iN iQ iB r_i rawCells =
      (none, [Warning.emptyBarcode r_i (pyStrip ((rawCells.map pyStrip).getD iN []))]) := by
  unfold rowResult
  dsimp only
  rw [if_neg (Nat.not_le.2 hlen)]
  have h1 : ¬ (((pyStrip ((rawCells.map pyStrip).getD iN [])).isEmpty &&
      (pyStrip ((rawCells.map pyStrip).getD iB [])).isEmpty) = true) := by
    intro hc
    rw [Bool.and_eq_true] at hc
    exact hname (List.isEmpty_iff.mp hc.1)
  have h2 : ¬ (hasSub sumMarker (pyStrip ((rawCells.map pyStrip).getD iN [])) = true) := by
    simp only [hsum]
    exact Bool.false_ne_true
  rw [if_neg h1, if_neg h2, if_neg hqty, if_pos (List.isEmpty_iff.mpr hbar)]

/-- Witness for the amended C6: blank barcode, non-blank name. -/
theorem C6_blank_barcode_witness :
    rowResult 0 1 2 2 [toCL "사과", toCL "3", toCL ""] =
      (none, [Warning.emptyBarcode 2 (toCL "사과")]) := by
  have h := C6_blank_barcode 0 1 2 2 [toCL "사과", toCL "3", toCL ""]
    (by decide) (by decide) (by decide) (by decide) (by decide)
  simpa using h

end Packing
